import Mathlib

/-!
Verification of the legal-contract-analyser pipeline (a LangGraph
multi-agent workflow).  Shallow embedding of:

* `src/models/state.py`   — the shared `ContractAnalysisState` TypedDict
* `src/models/schemas.py` — the Pydantic result schemas
* `src/graph.py`          — routing, error handler, graph wiring
* `src/graph_with_tools.py` — the tool-calling variant with a ReAct sub-loop
* `src/agents/*.py`       — the step functions (parser, clause extractor,
  risk assessor, summariser, tool-calling parser)
* `src/main.py`           — the CLI initial state

Modelling conventions.
A Python dict-backed state is a record; a key that is absent and a key
that is present with value `None` are both modelled as `none` for the
payload fields (every reader in the code accesses them through
`dict.get` with a falsy default, so the two are observably equal),
except for `file_path`, where `state["file_path"]` raises `KeyError`
when the key is absent — there `none` means "key absent".
A node returns a patch dict; a patch field `none` means "key not in the
patch dict", `some v` means "key present with value v" (`v` itself is an
`Option` where the code can write `None`).  LangGraph merges a patch by
overwriting each present key, and appends for the `messages` channel
(`add_messages`).  A Python exception is `Except.error` carrying
`str(e)`; external calls (PDF library, LLM client, parsing tools) are
oracle parameters so theorems quantify over every possible behaviour of
the outside world.  Python `len`/slicing on `str` is over code points,
matching `String.data : List Char`.
-/

namespace ContractAnalyser

/-! ### Python string helpers -/

/-- Python `s[:n]` on a `str` (a code-point slice). -/
def pySlice (s : String) (n : Nat) : String := String.mk (s.data.take n)

/-- Python `s.upper()` (ASCII letters; the inputs it is applied to are
clause-type / risk-level tags). -/
def pyUpper (s : String) : String := String.map Char.toUpper s

/-- Python `", ".join(xs)`. -/
def commaJoin (xs : List String) : String := String.intercalate ", " xs

/-- Python `s.strip()`: remove leading and trailing whitespace. -/
def pyStrip (s : String) : String :=
  String.mk (((s.data.dropWhile Char.isWhitespace).reverse.dropWhile Char.isWhitespace).reverse)

/-- Truthiness of a Python value that is either `None` or a `str`
(`None` and `""` are falsy). -/
def pyTruthyOpt : Option String → Bool
  | none => false
  | some c => c ≠ ""

/-! ### Result schemas, from `src/models/schemas.py` -/

structure ExtractedClause where
  clause_type : String
  title : String
  text : String
  section_reference : String
deriving DecidableEq

structure ClauseExtractionResult where
  clauses : List ExtractedClause
  contract_type : String
  parties : List String
  effective_date : Option String
deriving DecidableEq

structure ClauseRiskAssessment where
  clause_type : String
  section_reference : String
  risk_level : String
  risk_reasoning : String
  key_concerns : List String
  recommendation : String
deriving DecidableEq

structure RiskAssessmentResult where
  overall_risk : String
  clause_assessments : List ClauseRiskAssessment
  missing_clauses : List String
  summary_of_concerns : String
deriving DecidableEq

/-! ### Messages and tool calls (langchain message log) -/

/-- One tool invocation requested by the reasoning LLM.  Every tool in
this repository takes the single argument `file_path`. -/
structure ToolCall where
  name : String
  file_path : String
deriving DecidableEq

/-- A record of the `messages` channel: system, human, AI (with the
tool calls it requests) or tool-result message. -/
inductive Msg where
  | system (content : String)
  | human (content : String)
  | ai (content : String) (tool_calls : List ToolCall)
  | tool (content : String)
deriving DecidableEq

/-- The AI message object returned by `llm_with_tools.invoke`. -/
structure AIMsg where
  content : String
  tool_calls : List ToolCall
deriving DecidableEq

/-- Result of one extraction tool (`src/agents/parser_with_tools.py`):
either a dict carrying `full_text` (plus further string fields,
e.g. `method`) or an `error` dict. -/
inductive ToolResult where
  | ok (full_text : String) (extras : List (String × String))
  | err (msg : String)
deriving DecidableEq

/-- JSON string quoting as used below (the escaping of quotes and
backslashes inside the payload is elided; the payloads used in this
development contain neither). -/
def jsonQuote (s : String) : String := "\"" ++ s ++ "\""

/-- Serialization of a tool result dict into the `content` of the
ToolMessage, as the LangGraph `ToolNode` does (`json.dumps`). -/
def ToolResult.serialize : ToolResult → String
  | ToolResult.ok ft extras =>
      "\x7b\"full_text\": " ++ jsonQuote ft ++
        String.join (extras.map (fun p => ", " ++ jsonQuote p.1 ++ ": " ++ jsonQuote p.2)) ++
        "\x7d"
  | ToolResult.err m => "\x7b\"error\": " ++ jsonQuote m ++ "\x7d"

/-! ### Python exceptions and external results -/

/-- A Python exception as observed by the `except` clauses of
`src/agents/parser.py`: a `FileNotFoundError` or any other exception,
with its `str(e)` rendering. -/
inductive PyErr where
  | fileNotFound (msg : String)
  | other (msg : String)
deriving DecidableEq

/-- The `str(e)` of an exception. -/
def PyErr.msg : PyErr → String
  | PyErr.fileNotFound m => m
  | PyErr.other m => m

/-- File-level metadata dict (`src/tools/pdf_parser.py`); values are
kept as rendered strings since no step inspects them. -/
abbrev Metadata := List (String × String)

/-- Python `metadata[k] = v`. -/
def Metadata.set (m : Metadata) (k v : String) : Metadata :=
  (k, v) :: m.filter (fun p => p.1 ≠ k)

/-- The dict returned by `tools/pdf_parser.py:parse_pdf`, restricted to
the keys the parser agent reads. -/
structure PdfResult where
  full_text : String
  metadata : Metadata
deriving DecidableEq

/-! ### The shared state, from `src/models/state.py` -/

structure ContractAnalysisState where
  file_path : Option String := none
  messages : List Msg := []
  parsed_text : Option String := none
  document_metadata : Option Metadata := none
  extraction_result : Option ClauseExtractionResult := none
  risk_result : Option RiskAssessmentResult := none
  executive_summary : Option String := none
  current_step : Option String := none
  error_message : Option String := none
deriving DecidableEq

/-- A state patch: the dict a node returns.  An outer `none` means the
key is not in the dict; `some v` means the key is present with value
`v` (which the code may set to `None`).  `file_path` never appears in
any patch in the source, so it is not a patch field. -/
structure Patch where
  messages : List Msg := []
  parsed_text : Option (Option String) := none
  document_metadata : Option Metadata := none
  extraction_result : Option ClauseExtractionResult := none
  risk_result : Option RiskAssessmentResult := none
  executive_summary : Option String := none
  current_step : Option String := none
  error_message : Option (Option String) := none
deriving DecidableEq

/-- LangGraph state merge: every key present in the patch overwrites
the state field; the `messages` channel appends (`add_messages`). -/
def applyPatch (s : ContractAnalysisState) (p : Patch) : ContractAnalysisState where
  file_path := s.file_path
  messages := s.messages ++ p.messages
  parsed_text := match p.parsed_text with | none => s.parsed_text | some v => v
  document_metadata := match p.document_metadata with | none => s.document_metadata | some v => some v
  extraction_result := match p.extraction_result with | none => s.extraction_result | some v => some v
  risk_result := match p.risk_result with | none => s.risk_result | some v => some v
  executive_summary := match p.executive_summary with | none => s.executive_summary | some v => some v
  current_step := match p.current_step with | none => s.current_step | some v => some v
  error_message := match p.error_message with | none => s.error_message | some v => v

/-! ### Routing and the error terminal, from `src/graph.py` lines 15-39
(`src/graph_with_tools.py` lines 23-38 repeat the same two functions
verbatim). -/

/-- The routing dict literal inside `route_after_step`. -/
def routing : List (String × String) :=
  [("extract", "clause_extractor"),
   ("assess_risk", "risk_assessor"),
   ("summarise", "summariser"),
   ("complete", "complete"),
   ("error", "error_handler")]

/-- `route_after_step`: `step = state.get("current_step", "error")`,
then `routing.get(step, "error_handler")`. -/
def route_after_step (s : ContractAnalysisState) : String :=
  let step := s.current_step.getD "error"
  (routing.lookup step).getD "error_handler"

/-- `error_handler`: computes the log line text from
`state.get("error_message", "Unknown error occurred.")` (the print is
modelled as the first component) and returns the patch
`dict(current_step = "error")`. -/
def error_handler (s : ContractAnalysisState) : String × Patch :=
  (s.error_message.getD "Unknown error occurred.",
   { current_step := some "error" })

/-- The error-terminal stage of a run: `error_handler` executes, its
patch is merged, and the only outgoing edge
(`graph.add_edge("error_handler", END)`) ends the run with this state. -/
def error_stage (s : ContractAnalysisState) : ContractAnalysisState :=
  applyPatch s (error_handler s).2

/-! ### Clause extractor, from `src/agents/clause_extractor.py` -/

/-- `max_chars = 1_500_000`. -/
def max_chars : Nat := 1500000

/-- The f-string note appended when the contract is truncated. -/
def truncation_note (total : Nat) : String :=
  "\n\n[NOTE: Contract truncated at " ++ toString max_chars ++
    " characters. Full contract is " ++ toString total ++ " characters.]"

/-- `text_to_analyse` as computed in `clause_extractor_agent` lines
37-44: slice to the budget, then append the note when the original
text is longer than the budget. -/
def text_to_analyse (parsed_text : String) : String :=
  let t := pySlice parsed_text max_chars
  if parsed_text.length > max_chars then t ++ truncation_note parsed_text.length
  else t

/-- `clause_extractor_agent`.  The structured-output LLM call is the
oracle `ext`, applied to the content of the human message the agent
builds; an `Except.error e` is an exception with `str(e) = e`. -/
def clause_extractor_agent (ext : String → Except String ClauseExtractionResult)
    (s : ContractAnalysisState) : Patch :=
  let parsed_text := s.parsed_text.getD ""
  if parsed_text = "" then
    { current_step := some "error",
      error_message := some (some "No parsed text available for clause extraction.") }
  else
    match ext ("Extract all key clauses from this contract:\n\n" ++ text_to_analyse parsed_text) with
    | Except.ok result =>
        { extraction_result := some result, current_step := some "assess_risk" }
    | Except.error e =>
        { current_step := some "error",
          error_message := some (some ("Clause extraction failed: " ++ e)) }

/-! ### Risk assessor, from `src/agents/risk_assessor.py` -/

/-- One line of the clause listing (the f-string in the `for` loop of
`_format_clauses_for_assessment`; the literal `â€”` reproduces the
bytes in the source file). -/
def clauseLine (i : Nat) (c : ExtractedClause) : String :=
  "\n[" ++ toString i ++ "] " ++ pyUpper c.clause_type ++ " â€” " ++ c.title ++
    "\n    Section: " ++ c.section_reference ++
    "\n    Text: " ++ c.text

/-- `_format_clauses_for_assessment`. -/
def format_clauses_for_assessment (extraction : ClauseExtractionResult) : String :=
  let parts := ["Contract Type: " ++ extraction.contract_type,
                "Parties: " ++ commaJoin extraction.parties]
  let parts := parts ++
    (match extraction.effective_date with
     | some d => if d = "" then [] else ["Effective Date: " ++ d]
     | none => [])
  let parts := parts ++
    ["\nExtracted Clauses (" ++ toString extraction.clauses.length ++ " found):",
     String.mk (List.replicate 60 '-')]
  let parts := parts ++ (List.enumFrom 1 extraction.clauses).map (fun p => clauseLine p.1 p.2)
  String.intercalate "\n" parts

/-- `risk_assessor_agent`; `rk` is the structured-output LLM oracle. -/
def risk_assessor_agent (rk : String → Except String RiskAssessmentResult)
    (s : ContractAnalysisState) : Patch :=
  match s.extraction_result with
  | none =>
      { current_step := some "error",
        error_message := some (some "No extraction results available for risk assessment.") }
  | some extraction =>
      match rk ("Assess the risk of the following contract clauses:\n\n" ++
                  format_clauses_for_assessment extraction) with
      | Except.ok result =>
          { risk_result := some result, current_step := some "summarise" }
      | Except.error e =>
          { current_step := some "error",
            error_message := some (some ("Risk assessment failed: " ++ e)) }

/-! ### Summariser, from `src/agents/summariser.py` -/

/-- One block of the clause-by-clause assessment listing. -/
def assessmentLine (a : ClauseRiskAssessment) : String :=
  "\n[" ++ pyUpper a.risk_level ++ "] " ++ a.clause_type ++
    " (" ++ a.section_reference ++ ")" ++
    "\n  Reasoning: " ++ a.risk_reasoning ++
    "\n  Concerns: " ++ (if a.key_concerns.isEmpty then "None" else commaJoin a.key_concerns) ++
    "\n  Recommendation: " ++ a.recommendation

/-- `_build_analysis_context`. -/
def build_analysis_context (extraction : ClauseExtractionResult)
    (risk : RiskAssessmentResult) : String :=
  let parts := ["=== CONTRACT DETAILS ===",
                "Type: " ++ extraction.contract_type,
                "Parties: " ++ commaJoin extraction.parties,
                "Effective Date: " ++
                  (match extraction.effective_date with
                   | some d => if d = "" then "Not specified" else d
                   | none => "Not specified"),
                "Clauses Extracted: " ++ toString extraction.clauses.length,
                "",
                "=== RISK OVERVIEW ===",
                "Overall Risk: " ++ pyUpper risk.overall_risk,
                "Concerns: " ++ risk.summary_of_concerns,
                ""]
  let parts := parts ++
    (if risk.missing_clauses.isEmpty then []
     else ["Missing Clauses: " ++ commaJoin risk.missing_clauses, ""])
  let parts := parts ++ ["=== CLAUSE-BY-CLAUSE ASSESSMENT ==="]
  let parts := parts ++ risk.clause_assessments.map assessmentLine
  String.intercalate "\n" parts

/-- `summariser_agent`; `summ` is the free-text LLM oracle
(`response.content`). -/
def summariser_agent (summ : String → Except String String)
    (s : ContractAnalysisState) : Patch :=
  match s.extraction_result, s.risk_result with
  | some extraction, some risk =>
      match summ ("Produce an executive summary from this analysis:\n\n" ++
                    build_analysis_context extraction risk) with
      | Except.ok content =>
          { executive_summary := some content, current_step := some "complete" }
      | Except.error e =>
          { current_step := some "error",
            error_message := some (some ("Summarisation failed: " ++ e)) }
  | _, _ =>
      { current_step := some "error",
        error_message := some (some "Missing extraction or risk data for summarisation.") }

/-! ### Simple parser agent, from `src/agents/parser.py` -/

namespace SimpleParser

/-- `parser_agent` of `src/agents/parser.py`.  The line
`pdf_path = state["file_path"]` executes before the `try:` block, so a
state without the `file_path` key raises `KeyError` out of the step
(returned as `Except.error`).  `parsePdf` is the `tools/pdf_parser.py`
backend (it may raise `FileNotFoundError` or any other exception);
`validate` is the cheap validation LLM call (`response.content`), which
may also raise. -/
def parser_agent (parsePdf : String → Except PyErr PdfResult)
    (validate : String → Except PyErr String)
    (s : ContractAnalysisState) : Except String Patch :=
  match s.file_path with
  | none => Except.error "KeyError: file_path"
  | some pdf_path =>
      Except.ok
        (match parsePdf pdf_path with
         | Except.error (PyErr.fileNotFound m) =>
             { current_step := some "error", error_message := some (some m) }
         | Except.error (PyErr.other m) =>
             { current_step := some "error",
               error_message := some (some ("Parser failed: " ++ m)) }
         | Except.ok result =>
             if pyStrip result.full_text = "" then
               { parsed_text := some none,
                 document_metadata := some result.metadata,
                 current_step := some "error",
                 error_message :=
                   some (some "PDF appears to be empty or image-only (OCR not implemented).") }
             else
               match validate (pySlice result.full_text 3000) with
               | Except.error (PyErr.fileNotFound m) =>
                   { current_step := some "error", error_message := some (some m) }
               | Except.error (PyErr.other m) =>
                   { current_step := some "error",
                     error_message := some (some ("Parser failed: " ++ m)) }
               | Except.ok content =>
                   { parsed_text := some (some result.full_text),
                     document_metadata :=
                       some (result.metadata.set "parser_analysis" content),
                     current_step := some "extract" })

end SimpleParser

/-! ### Tool-calling parser agent, from `src/agents/parser_with_tools.py` -/

namespace ToolsParser

/-- `MULTI_FORMAT_PARSER_PROMPT` (the system seed message; its exact
text only feeds the LLM oracle). -/
def MULTI_FORMAT_PARSER_PROMPT : String :=
  "You are a document parsing specialist. You have access to tools for extracting text " ++
  "from different file formats.\n\n" ++
  "Given a file path, determine the best extraction method:\n" ++
  "- Use `parse_pdf` for standard PDF files with selectable text\n" ++
  "- Use `parse_docx` for Word documents (.docx, .doc)\n" ++
  "- Use `ocr_scanned_document` for scanned PDFs (image-based) or image files (.png, .jpg)\n\n" ++
  "Look at the file extension to decide. If a PDF extraction returns very little text " ++
  "relative to the page count, the PDF might be scanned â€” try OCR as a fallback.\n\n" ++
  "IMPORTANT: Once you have successfully extracted text from the document, DO NOT call " ++
  "any more tools. Instead, respond with a brief assessment of whether the document " ++
  "appears to be a legal contract. Never call the same tool twice on the same file."

/-- `Path(file_path).suffix.lower()` for ordinary file names: the part
of the last path component from its final dot, lower-cased; empty when
there is no dot or the name is a pure dot-file. -/
def pathSuffixLower (p : String) : String :=
  let name := (p.splitOn "/").getLastD p
  match name.splitOn "." with
  | [] => ""
  | [_] => ""
  | parts =>
      if parts.headD "" = "" && parts.length = 2 then ""
      else "." ++ (parts.getLastD "").toLower

/-- The seed message list of the very first reasoning invocation. -/
def seed_messages (file_path : String) : List Msg :=
  [Msg.system MULTI_FORMAT_PARSER_PROMPT,
   Msg.human ("Please extract text from this file: " ++ file_path ++
                "\nFile extension: " ++ pathSuffixLower file_path)]

/-- The `for msg in existing_messages` loop of `parser_agent` lines
169-171: keep the `content` of the last tool-result message seen
(`None` when there is none). -/
def lastToolContent (ms : List Msg) : Option String :=
  ms.foldl (fun acc m => match m with | Msg.tool c => some c | _ => acc) none

/-- `parser_agent` of `src/agents/parser_with_tools.py`.  Reads
`state["file_path"]` (KeyError when absent — the function has no
`try:` at all, so any exception propagates, including one raised by
the LLM client oracle `llm`). -/
def parser_agent (llm : List Msg → Except String AIMsg)
    (s : ContractAnalysisState) : Except String Patch :=
  match s.file_path with
  | none => Except.error "KeyError: file_path"
  | some file_path =>
      match (if s.messages.isEmpty then llm (seed_messages file_path) else llm s.messages) with
      | Except.error e => Except.error e
      | Except.ok response =>
          if response.tool_calls.isEmpty then
            let parsed_text := lastToolContent s.messages
            Except.ok
              { messages := [Msg.ai response.content response.tool_calls],
                parsed_text := some parsed_text,
                current_step := some (if pyTruthyOpt parsed_text then "extract" else "error"),
                error_message :=
                  some (if pyTruthyOpt parsed_text then none
                        else some "Failed to extract text from document.") }
          else
            Except.ok { messages := [Msg.ai response.content response.tool_calls] }

/-- The tool-result messages appended for a list of tool calls, in
request order. -/
def tool_messages (runTool : String → String → ToolResult) (tcs : List ToolCall) : List Msg :=
  tcs.map (fun tc => Msg.tool (ToolResult.serialize (runTool tc.name tc.file_path)))

/-- The `ToolNode(tools=PARSER_TOOLS)` node: execute every tool call of
the last (AI) message in request order and append one tool-result
message per call.  `runTool` is the oracle for the three extraction
backends (tool name, `file_path` argument). -/
def tool_node (runTool : String → String → ToolResult)
    (s : ContractAnalysisState) : Except String Patch :=
  match s.messages.getLast? with
  | some (Msg.ai _ tcs) =>
      if tcs.isEmpty then Except.error "ToolNode: no tool calls"
      else Except.ok { messages := tool_messages runTool tcs }
  | _ => Except.error "ToolNode: last message is not an AI message"

end ToolsParser

/-! ### Graph wiring, from `src/graph.py` / `src/graph_with_tools.py`

Each `add_conditional_edges(node, route_after_step, mapping)` is a
stage function: run the node, merge its patch, evaluate
`route_after_step` and continue along the edge the mapping names.  A
routing key absent from the mapping is a LangGraph runtime error
(`Except.error`); the error terminal leads straight to `END`. -/

/-- The `summariser` node followed by its conditional edges
(`"complete" → END`, `"error_handler" → error_handler → END`). -/
def summariser_stage (summ : String → Except String String)
    (s : ContractAnalysisState) : Except String ContractAnalysisState :=
  let s1 := applyPatch s (summariser_agent summ s)
  let k := route_after_step s1
  if k = "complete" then Except.ok s1
  else if k = "error_handler" then Except.ok (error_stage s1)
  else Except.error ("unmapped route key: " ++ k)

/-- The `risk_assessor` node followed by its conditional edges. -/
def risk_stage (rk : String → Except String RiskAssessmentResult)
    (summ : String → Except String String)
    (s : ContractAnalysisState) : Except String ContractAnalysisState :=
  let s1 := applyPatch s (risk_assessor_agent rk s)
  let k := route_after_step s1
  if k = "summariser" then summariser_stage summ s1
  else if k = "error_handler" then Except.ok (error_stage s1)
  else Except.error ("unmapped route key: " ++ k)

/-- The `clause_extractor` node followed by its conditional edges. -/
def clause_stage (ext : String → Except String ClauseExtractionResult)
    (rk : String → Except String RiskAssessmentResult)
    (summ : String → Except String String)
    (s : ContractAnalysisState) : Except String ContractAnalysisState :=
  let s1 := applyPatch s (clause_extractor_agent ext s)
  let k := route_after_step s1
  if k = "risk_assessor" then risk_stage rk summ s1
  else if k = "error_handler" then Except.ok (error_stage s1)
  else Except.error ("unmapped route key: " ++ k)

/-- One run of the compiled `src/graph.py` pipeline: entry node
`parser`, then conditional edges as wired in `build_graph`.
`Except.error` is an exception escaping the run. -/
def run_pipeline (parsePdf : String → Except PyErr PdfResult)
    (validate : String → Except PyErr String)
    (ext : String → Except String ClauseExtractionResult)
    (rk : String → Except String RiskAssessmentResult)
    (summ : String → Except String String)
    (s0 : ContractAnalysisState) : Except String ContractAnalysisState :=
  match SimpleParser.parser_agent parsePdf validate s0 with
  | Except.error e => Except.error e
  | Except.ok p =>
      let s1 := applyPatch s0 p
      let k := route_after_step s1
      if k = "clause_extractor" then clause_stage ext rk summ s1
      else if k = "error_handler" then Except.ok (error_stage s1)
      else Except.error ("unmapped route key: " ++ k)

/-- The ReAct sub-loop of `src/graph_with_tools.py`: `parser_agent`,
then `tools_condition` on the freshly appended AI message — loop
through `parser_tools` while it requests tools, hand the state to
`clause_extractor` (result `some`) once it stops.  `fuel` bounds the
unbounded Python loop; `none` models a run that is still looping when
the fuel runs out (the source has no iteration cap). -/
def parse_loop (llm : List Msg → Except String AIMsg)
    (runTool : String → String → ToolResult) :
    Nat → ContractAnalysisState → Except String (Option ContractAnalysisState)
  | 0, _ => Except.ok none
  | fuel + 1, s =>
      match ToolsParser.parser_agent llm s with
      | Except.error e => Except.error e
      | Except.ok p =>
          let s1 := applyPatch s p
          match s1.messages.getLast? with
          | some (Msg.ai _ tcs) =>
              if tcs.isEmpty then Except.ok (some s1)
              else
                match ToolsParser.tool_node runTool s1 with
                | Except.error e => Except.error e
                | Except.ok tp => parse_loop llm runTool fuel (applyPatch s1 tp)
          | _ => Except.ok (some s1)

/-- One run of the compiled `src/graph_with_tools.py` pipeline: the
parser ReAct sub-loop, then (unconditionally, via the `END` branch of
`tools_condition`) the `clause_extractor` chain. -/
def run_pipeline_with_tools (llm : List Msg → Except String AIMsg)
    (runTool : String → String → ToolResult)
    (ext : String → Except String ClauseExtractionResult)
    (rk : String → Except String RiskAssessmentResult)
    (summ : String → Except String String)
    (fuel : Nat) (s0 : ContractAnalysisState) :
    Except String (Option ContractAnalysisState) :=
  match parse_loop llm runTool fuel s0 with
  | Except.error e => Except.error e
  | Except.ok none => Except.ok none
  | Except.ok (some s1) =>
      match clause_stage ext rk summ s1 with
      | Except.error e => Except.error e
      | Except.ok sf => Except.ok (some sf)

/-- The initial state built by `src/main.py` lines 109-118.  It stores
the contract path under the key `"pdf_path"`, which is not a field of
the `ContractAnalysisState` schema, so the graph state has no
`file_path` key (`pdf_path` is discarded by the schema); all other
keys are set as in the source. -/
def main_initial_state : ContractAnalysisState :=
  { file_path := none,
    messages := [],
    parsed_text := none,
    document_metadata := none,
    extraction_result := none,
    risk_result := none,
    executive_summary := none,
    current_step := some "parse",
    error_message := none }

/-! ### Auxiliary observation functions -/

/-- The contents of the tool-result records of a message log, in
order. -/
def toolContents (ms : List Msg) : List String :=
  ms.filterMap (fun m => match m with | Msg.tool c => some c | _ => none)

/-- Whether some tool-result record of the log has non-empty content
(the truthiness test the tool-calling parser effectively applies). -/
def anyUsableToolResult (ms : List Msg) : Bool :=
  ms.any (fun m => match m with | Msg.tool c => c ≠ "" | _ => false)

/-! ### Concrete scenario inputs for witnesses and counterexamples -/

/-- A 1,500,001-character text, one character over the truncation
budget. -/
def longText : String := String.mk (List.replicate 1500001 'a')

/-- A sample structured extraction result. -/
def sampleExtraction : ClauseExtractionResult :=
  { clauses := [], contract_type := "NDA", parties := ["Acme Corp", "Beta Ltd"],
    effective_date := none }

/-- A sample structured risk result. -/
def sampleRisk : RiskAssessmentResult :=
  { overall_risk := "low", clause_assessments := [], missing_clauses := [],
    summary_of_concerns := "No major concerns." }

/-- The `error` payload the `parse_docx` tool returns when the
`python-docx` dependency is missing. -/
def docxErrText : String := "python-docx not installed. Run: pip install python-docx"

/-- The ToolMessage content of that error record. -/
def docxErrContent : String := ToolResult.serialize (ToolResult.err docxErrText)

/-- The tool call issued in the C1/C2 scenarios. -/
def docxToolCall : ToolCall := { name := "parse_docx", file_path := "contract.docx" }

/-- C1 scenario reasoning oracle: request `parse_docx` once, then (as
soon as a tool result is in the log) stop requesting tools. -/
def c1_llm : List Msg → Except String AIMsg :=
  fun ms =>
    if ms.any (fun m => match m with | Msg.tool _ => true | _ => false) then
      Except.ok { content := "The document appears to be a legal contract.", tool_calls := [] }
    else
      Except.ok { content := "", tool_calls := [docxToolCall] }

/-- C1 scenario tool oracle: every tool invocation fails with the
missing-dependency error record. -/
def c1_runTool : String → String → ToolResult := fun _ _ => ToolResult.err docxErrText

def c1_ext : String → Except String ClauseExtractionResult :=
  fun _ => Except.ok sampleExtraction

def c1_rk : String → Except String RiskAssessmentResult :=
  fun _ => Except.ok sampleRisk

def c1_summ : String → Except String String := fun _ => Except.ok "Executive summary."

def c1_init : ContractAnalysisState :=
  { file_path := some "contract.docx", current_step := some "parse" }

/-- The final state of the C1 scenario run. -/
def c1_final : ContractAnalysisState :=
  { file_path := some "contract.docx",
    messages := [Msg.ai "" [docxToolCall], Msg.tool docxErrContent,
                 Msg.ai "The document appears to be a legal contract." []],
    parsed_text := some docxErrContent,
    document_metadata := none,
    extraction_result := some sampleExtraction,
    risk_result := some sampleRisk,
    executive_summary := some "Executive summary.",
    current_step := some "complete",
    error_message := none }

/-- Reasoning oracle that never requests a tool (used to witness the
amended C1). -/
def w1_llm : List Msg → Except String AIMsg :=
  fun _ => Except.ok { content := "I cannot parse this file.", tool_calls := [] }

def w1_init : ContractAnalysisState :=
  { file_path := some "contract.pdf", current_step := some "parse" }

/-- The final state of the witness run for the amended C1. -/
def w1_final : ContractAnalysisState :=
  { file_path := some "contract.pdf",
    messages := [Msg.ai "I cannot parse this file." []],
    parsed_text := none,
    document_metadata := none,
    extraction_result := none,
    risk_result := none,
    executive_summary := none,
    current_step := some "error",
    error_message := some "No parsed text available for clause extraction." }

/-- C2 scenario state: the log holds one tool request and one
tool-result record that is an `error` record (it has no `full_text`
field). -/
def c2_state : ContractAnalysisState :=
  { file_path := some "contract.docx",
    messages := [Msg.ai "" [docxToolCall], Msg.tool docxErrContent],
    current_step := some "parse" }

def c2_llm : List Msg → Except String AIMsg :=
  fun _ => Except.ok { content := "Extraction complete.", tool_calls := [] }

/-- C2 witness oracle and state: a done reasoning step over a log with
an ordinary tool-result record. -/
def w2_llm : List Msg → Except String AIMsg :=
  fun _ => Except.ok { content := "This is a contract.", tool_calls := [] }

def w2_state : ContractAnalysisState :=
  { file_path := some "a.pdf",
    messages := [Msg.tool "some extracted text"],
    current_step := some "parse" }

/-- C7 witness oracles: a fully successful run of the simple
pipeline. -/
def c7_parsePdf : String → Except PyErr PdfResult :=
  fun _ => Except.ok { full_text := "Sample contract text.", metadata := [] }

def c7_validate : String → Except PyErr String :=
  fun _ => Except.ok "Yes, a contract."

def c7_init : ContractAnalysisState :=
  { file_path := some "contract.pdf", current_step := some "parse" }

/-- The final state of the C7 witness run. -/
def c7_final : ContractAnalysisState :=
  { file_path := some "contract.pdf",
    messages := [],
    parsed_text := some "Sample contract text.",
    document_metadata := some [("parser_analysis", "Yes, a contract.")],
    extraction_result := some sampleExtraction,
    risk_result := some sampleRisk,
    executive_summary := some "Executive summary.",
    current_step := some "complete",
    error_message := none }

/-! ### Shared lemmas -/

/-- `route_after_step` as an if-chain over the routing keys (the
`"error"` table entry and the fail-closed default coincide). -/
theorem route_after_step_ite (s : ContractAnalysisState) :
    route_after_step s =
      (if s.current_step.getD "error" = "extract" then "clause_extractor"
       else if s.current_step.getD "error" = "assess_risk" then "risk_assessor"
       else if s.current_step.getD "error" = "summarise" then "summariser"
       else if s.current_step.getD "error" = "complete" then "complete"
       else "error_handler") := by
  simp only [route_after_step, routing, List.lookup]
  generalize s.current_step.getD "error" = v
  by_cases h1 : v = "extract"
  · simp [h1]
  · have e1 : (v == "extract") = false := by simp [h1]
    by_cases h2 : v = "assess_risk"
    · simp [e1, h1, h2]
    · have e2 : (v == "assess_risk") = false := by simp [h2]
      by_cases h3 : v = "summarise"
      · simp [e1, e2, h1, h2, h3]
      · have e3 : (v == "summarise") = false := by simp [h3]
        by_cases h4 : v = "complete"
        · simp [e1, e2, e3, h1, h2, h3, h4]
        · have e4 : (v == "complete") = false := by simp [h4]
          by_cases h5 : v = "error"
          · simp [e1, e2, e3, e4, h1, h2, h3, h4, h5]
          · have e5 : (v == "error") = false := by simp [h5]
            simp [e1, e2, e3, e4, e5, h1, h2, h3, h4, h5]

theorem route_of_error (s : ContractAnalysisState)
    (h : s.current_step = some "error") : route_after_step s = "error_handler" := by
  simp [route_after_step_ite, h]

theorem route_of_extract (s : ContractAnalysisState)
    (h : s.current_step = some "extract") : route_after_step s = "clause_extractor" := by
  simp [route_after_step_ite, h]

theorem route_of_assess_risk (s : ContractAnalysisState)
    (h : s.current_step = some "assess_risk") : route_after_step s = "risk_assessor" := by
  simp [route_after_step_ite, h]

theorem route_of_summarise (s : ContractAnalysisState)
    (h : s.current_step = some "summarise") : route_after_step s = "summariser" := by
  simp [route_after_step_ite, h]

theorem route_of_complete (s : ContractAnalysisState)
    (h : s.current_step = some "complete") : route_after_step s = "complete" := by
  simp [route_after_step_ite, h]

/-- The error terminal only rewrites `current_step`. -/
theorem error_stage_eq (s : ContractAnalysisState) :
    error_stage s = { s with current_step := some "error" } := by
  cases s
  simp [error_stage, error_handler, applyPatch]

/-- No step patch writes the messages channel except the tool-calling
parser. -/
theorem clause_extractor_agent_messages
    (ext : String → Except String ClauseExtractionResult) (s : ContractAnalysisState) :
    (clause_extractor_agent ext s).messages = [] := by
  simp only [clause_extractor_agent]
  split
  · rfl
  · split <;> rfl

theorem risk_assessor_agent_messages
    (rk : String → Except String RiskAssessmentResult) (s : ContractAnalysisState) :
    (risk_assessor_agent rk s).messages = [] := by
  unfold risk_assessor_agent
  split
  · rfl
  · split <;> rfl

theorem summariser_agent_messages
    (summ : String → Except String String) (s : ContractAnalysisState) :
    (summariser_agent summ s).messages = [] := by
  unfold summariser_agent
  split
  · split <;> rfl
  · rfl

/-- A stage that exits through the error terminal does not end on
`complete`. -/
theorem error_exit_step (s1 sf : ContractAnalysisState)
    (h : Except.ok (error_stage s1) = Except.ok (ε := String) sf) :
    sf.current_step = some "error" := by
  simp only [Except.ok.injEq] at h
  rw [← h, error_stage_eq]

/-- If the summariser stage terminates on `complete`, all three result
fields are present. -/
theorem summariser_stage_complete (summ : String → Except String String)
    (s sf : ContractAnalysisState)
    (h : summariser_stage summ s = Except.ok sf)
    (hc : sf.current_step = some "complete") :
    sf.extraction_result.isSome ∧ sf.risk_result.isSome ∧ sf.executive_summary.isSome := by
  rcases hE : s.extraction_result with _ | ex
  · have hstep : (applyPatch s (summariser_agent summ s)).current_step = some "error" := by
      simp [summariser_agent, hE, applyPatch]
    have hroute := route_of_error _ hstep
    unfold summariser_stage at h
    simp only [hroute] at h
    simp only [if_true] at h
    rw [error_exit_step _ _ h] at hc
    simp at hc
  · rcases hR : s.risk_result with _ | rr
    · have hstep : (applyPatch s (summariser_agent summ s)).current_step = some "error" := by
        simp [summariser_agent, hE, hR, applyPatch]
      have hroute := route_of_error _ hstep
      unfold summariser_stage at h
      simp only [hroute] at h
      simp only [if_true] at h
      rw [error_exit_step _ _ h] at hc
      simp at hc
    · rcases hS : summ ("Produce an executive summary from this analysis:\n\n" ++
          build_analysis_context ex rr) with e | content
      · have hstep : (applyPatch s (summariser_agent summ s)).current_step = some "error" := by
          simp [summariser_agent, hE, hR, hS, applyPatch]
        have hroute := route_of_error _ hstep
        unfold summariser_stage at h
        simp only [hroute] at h
        simp only [if_true] at h
        rw [error_exit_step _ _ h] at hc
        simp at hc
      · have hpatch : summariser_agent summ s =
            { executive_summary := some content, current_step := some "complete" } := by
          simp [summariser_agent, hE, hR, hS]
        have hstep : (applyPatch s (summariser_agent summ s)).current_step = some "complete" := by
          rw [hpatch]; simp [applyPatch]
        have hroute := route_of_complete _ hstep
        unfold summariser_stage at h
        simp only [hroute] at h
        simp only [if_true] at h
        simp only [Except.ok.injEq] at h
        rw [← h, hpatch]
        simp [applyPatch, hE, hR]

/-- If the risk-assessor stage terminates on `complete`, all three
result fields are present. -/
theorem risk_stage_complete (rk : String → Except String RiskAssessmentResult)
    (summ : String → Except String String) (s sf : ContractAnalysisState)
    (h : risk_stage rk summ s = Except.ok sf)
    (hc : sf.current_step = some "complete") :
    sf.extraction_result.isSome ∧ sf.risk_result.isSome ∧ sf.executive_summary.isSome := by
  rcases hE : s.extraction_result with _ | ex
  · have hstep : (applyPatch s (risk_assessor_agent rk s)).current_step = some "error" := by
      simp [risk_assessor_agent, hE, applyPatch]
    have hroute := route_of_error _ hstep
    unfold risk_stage at h
    simp only [hroute] at h
    simp only [if_true] at h
    rw [error_exit_step _ _ h] at hc
    simp at hc
  · rcases hS : rk ("Assess the risk of the following contract clauses:\n\n" ++
        format_clauses_for_assessment ex) with e | rr
    · have hstep : (applyPatch s (risk_assessor_agent rk s)).current_step = some "error" := by
        simp [risk_assessor_agent, hE, hS, applyPatch]
      have hroute := route_of_error _ hstep
      unfold risk_stage at h
      simp only [hroute] at h
      simp only [if_true] at h
      rw [error_exit_step _ _ h] at hc
      simp at hc
    · have hstep : (applyPatch s (risk_assessor_agent rk s)).current_step = some "summarise" := by
        simp [risk_assessor_agent, hE, hS, applyPatch]
      have hroute := route_of_summarise _ hstep
      unfold risk_stage at h
      simp only [hroute] at h
      simp only [if_true] at h
      exact summariser_stage_complete _ _ _ h hc

/-- If the clause-extractor stage terminates on `complete`, all three
result fields are present. -/
theorem clause_stage_complete (ext : String → Except String ClauseExtractionResult)
    (rk : String → Except String RiskAssessmentResult)
    (summ : String → Except String String) (s sf : ContractAnalysisState)
    (h : clause_stage ext rk summ s = Except.ok sf)
    (hc : sf.current_step = some "complete") :
    sf.extraction_result.isSome ∧ sf.risk_result.isSome ∧ sf.executive_summary.isSome := by
  by_cases hpt : s.parsed_text.getD "" = ""
  · have hstep : (applyPatch s (clause_extractor_agent ext s)).current_step = some "error" := by
      simp [clause_extractor_agent, hpt, applyPatch]
    have hroute := route_of_error _ hstep
    unfold clause_stage at h
    simp only [hroute] at h
    simp only [if_true] at h
    rw [error_exit_step _ _ h] at hc
    simp at hc
  · rcases hS : ext ("Extract all key clauses from this contract:\n\n" ++
        text_to_analyse (s.parsed_text.getD "")) with e | ex
    · have hstep : (applyPatch s (clause_extractor_agent ext s)).current_step = some "error" := by
        simp [clause_extractor_agent, hpt, hS, applyPatch]
      have hroute := route_of_error _ hstep
      unfold clause_stage at h
      simp only [hroute] at h
      simp only [if_true] at h
      rw [error_exit_step _ _ h] at hc
      simp at hc
    · have hstep : (applyPatch s (clause_extractor_agent ext s)).current_step =
          some "assess_risk" := by
        simp [clause_extractor_agent, hpt, hS, applyPatch]
      have hroute := route_of_assess_risk _ hstep
      unfold clause_stage at h
      simp only [hroute] at h
      simp only [if_true] at h
      exact risk_stage_complete _ _ _ _ h hc

/-- A falsy optional string is `None` or empty. -/
theorem pyTruthyOpt_false (o : Option String) (h : pyTruthyOpt o = false) :
    o = none ∨ o = some "" := by
  rcases o with _ | c
  · exact Or.inl rfl
  · right
    simp [pyTruthyOpt] at h
    rw [h]

/-- If no tool record of a log has non-empty content, the running
last-seen-tool-content fold stays falsy. -/
theorem lastToolContent_fold_falsy : ∀ (ms : List Msg) (acc : Option String),
    anyUsableToolResult ms = false → pyTruthyOpt acc = false →
    pyTruthyOpt (ms.foldl
      (fun acc m => match m with | Msg.tool c => some c | _ => acc) acc) = false := by
  intro ms
  induction ms with
  | nil =>
    intro acc _ hacc
    simpa using hacc
  | cons m ms ih =>
    intro acc h hacc
    simp only [anyUsableToolResult, List.any_cons, Bool.or_eq_false_iff] at h
    obtain ⟨hm, hms⟩ := h
    have hms' : anyUsableToolResult ms = false := hms
    rcases m with c | c | ⟨c, tcs⟩ | c
    · simpa [List.foldl_cons] using ih acc hms' hacc
    · simpa [List.foldl_cons] using ih acc hms' hacc
    · simpa [List.foldl_cons] using ih acc hms' hacc
    · simp only [decide_eq_false_iff_not, Decidable.not_not] at hm
      have : pyTruthyOpt (some c) = false := by simp [pyTruthyOpt, hm]
      simpa [List.foldl_cons] using ih (some c) hms' this

/-- Without a usable tool record, the content the tool-calling parser
extracts is falsy. -/
theorem lastToolContent_of_no_usable (ms : List Msg)
    (h : anyUsableToolResult ms = false) :
    ToolsParser.lastToolContent ms = none ∨ ToolsParser.lastToolContent ms = some "" :=
  pyTruthyOpt_false _ (lastToolContent_fold_falsy ms none h rfl)

/-- The fold ignores a tool-free log suffix. -/
theorem lastToolContent_fold_no_tool : ∀ (ms : List Msg) (acc : Option String),
    (∀ d, Msg.tool d ∉ ms) →
    ms.foldl (fun acc m => match m with | Msg.tool c => some c | _ => acc) acc = acc := by
  intro ms
  induction ms with
  | nil => intro acc _; rfl
  | cons m ms ih =>
    intro acc hno
    have hms : ∀ d, Msg.tool d ∉ ms := fun d hd => hno d (List.mem_cons_of_mem _ hd)
    rcases m with c | c | ⟨c, tcs⟩ | c
    · simpa [List.foldl_cons] using ih acc hms
    · simpa [List.foldl_cons] using ih acc hms
    · simpa [List.foldl_cons] using ih acc hms
    · exact absurd (List.mem_cons_self _ _) (hno c)

/-- `lastToolContent` returns the content of the most recent
tool-result record of the log. -/
theorem lastToolContent_most_recent (ms1 : List Msg) (c : String) (ms2 : List Msg)
    (hno : ∀ d, Msg.tool d ∉ ms2) :
    ToolsParser.lastToolContent (ms1 ++ Msg.tool c :: ms2) = some c := by
  unfold ToolsParser.lastToolContent
  rw [List.foldl_append, List.foldl_cons]
  exact lastToolContent_fold_no_tool ms2 (some c) hno

/-- The message merge of a patch. -/
theorem applyPatch_messages (s : ContractAnalysisState) (p : Patch) :
    (applyPatch s p).messages = s.messages ++ p.messages := rfl

/-- The tool-calling parser raises `KeyError` on a state without the
`file_path` key. -/
theorem parser_agent_keyerror (llm : List Msg → Except String AIMsg)
    (s : ContractAnalysisState) (hfp : s.file_path = none) :
    ToolsParser.parser_agent llm s = Except.error "KeyError: file_path" := by
  unfold ToolsParser.parser_agent
  rw [hfp]

/-- One reasoning invocation of the tool-calling parser, described by
the AI message the LLM client returned. -/
theorem parser_agent_eq (llm : List Msg → Except String AIMsg)
    (s : ContractAnalysisState) (fp : String) (resp : AIMsg)
    (hfp : s.file_path = some fp)
    (hresp : (if s.messages.isEmpty then llm (ToolsParser.seed_messages fp)
              else llm s.messages) = Except.ok resp) :
    ToolsParser.parser_agent llm s =
      (if resp.tool_calls.isEmpty then
        Except.ok
          { messages := [Msg.ai resp.content resp.tool_calls],
            parsed_text := some (ToolsParser.lastToolContent s.messages),
            current_step := some (if pyTruthyOpt (ToolsParser.lastToolContent s.messages)
                                  then "extract" else "error"),
            error_message := some (if pyTruthyOpt (ToolsParser.lastToolContent s.messages)
                                   then none
                                   else some "Failed to extract text from document.") }
      else Except.ok { messages := [Msg.ai resp.content resp.tool_calls] }) := by
  unfold ToolsParser.parser_agent
  simp only [hfp, hresp]

/-- The tool node executing the calls of the last AI message. -/
theorem tool_node_eq (runTool : String → String → ToolResult)
    (s : ContractAnalysisState) (c : String) (tcs : List ToolCall)
    (hlast : s.messages.getLast? = some (Msg.ai c tcs))
    (hne : tcs.isEmpty = false) :
    ToolsParser.tool_node runTool s =
      Except.ok { messages := ToolsParser.tool_messages runTool tcs } := by
  unfold ToolsParser.tool_node
  simp only [hlast, hne, Bool.false_eq_true, if_false]

/-- Any terminating pass of the parse sub-loop only appends to the
message log and, when the final log has no usable tool-result record,
hands over a falsy `parsed_text` together with the failed-extraction
error patch fields. -/
theorem parse_loop_spec (llm : List Msg → Except String AIMsg)
    (runTool : String → String → ToolResult) :
    ∀ (fuel : Nat) (s s1 : ContractAnalysisState),
      parse_loop llm runTool fuel s = Except.ok (some s1) →
      (∃ tail, s1.messages = s.messages ++ tail)
      ∧ (anyUsableToolResult s1.messages = false →
          (s1.parsed_text = none ∨ s1.parsed_text = some "")
          ∧ s1.current_step = some "error"
          ∧ s1.error_message = some "Failed to extract text from document.") := by
  intro fuel
  induction fuel with
  | zero =>
    intro s s1 h
    simp [parse_loop] at h
  | succ fuel ih =>
    intro s s1 h
    unfold parse_loop at h
    rcases hfp : s.file_path with _ | fp
    · rw [parser_agent_keyerror llm s hfp] at h
      exact Except.noConfusion h
    · rcases hresp : (if s.messages.isEmpty then llm (ToolsParser.seed_messages fp)
          else llm s.messages) with e | resp
      · have hperr : ToolsParser.parser_agent llm s = Except.error e := by
          unfold ToolsParser.parser_agent
          simp only [hfp, hresp]
        rw [hperr] at h
        exact Except.noConfusion h
      · have hp := parser_agent_eq llm s fp resp hfp hresp
        cases htc : resp.tool_calls.isEmpty
        · -- the reasoning step requested tools: execute them and loop
          rw [htc] at hp
          simp only [Bool.false_eq_true, if_false] at hp
          simp only [hp] at h
          have hlast : (applyPatch s
              { messages := [Msg.ai resp.content resp.tool_calls] }).messages.getLast? =
              some (Msg.ai resp.content resp.tool_calls) := by
            rw [applyPatch_messages]
            exact List.getLast?_concat _
          rw [hlast] at h
          simp only [htc, Bool.false_eq_true, if_false] at h
          rw [tool_node_eq runTool _ resp.content resp.tool_calls hlast htc] at h
          obtain ⟨⟨tail, htail⟩, hrest⟩ := ih _ _ h
          constructor
          · refine ⟨[Msg.ai resp.content resp.tool_calls] ++
              ToolsParser.tool_messages runTool resp.tool_calls ++ tail, ?_⟩
            rw [htail, applyPatch_messages, applyPatch_messages]
            simp
          · exact hrest
        · -- no further tool request: the done branch fires
          rw [htc] at hp
          simp only [if_true] at hp
          simp only [hp] at h
          have hlast : (applyPatch s
              { messages := [Msg.ai resp.content resp.tool_calls],
                parsed_text := some (ToolsParser.lastToolContent s.messages),
                current_step := some (if pyTruthyOpt (ToolsParser.lastToolContent s.messages)
                                      then "extract" else "error"),
                error_message := some (if pyTruthyOpt (ToolsParser.lastToolContent s.messages)
                                       then none
                                       else some "Failed to extract text from document.") }).messages.getLast? =
              some (Msg.ai resp.content resp.tool_calls) := by
            rw [applyPatch_messages]
            exact List.getLast?_concat _
          rw [hlast] at h
          simp only [htc, if_true] at h
          simp only [Except.ok.injEq, Option.some.injEq] at h
          subst h
          refine ⟨⟨[Msg.ai resp.content resp.tool_calls], rfl⟩, ?_⟩
          intro hnone
          rw [applyPatch_messages] at hnone
          have hsm : anyUsableToolResult s.messages = false := by
            simpa [anyUsableToolResult, List.any_append] using hnone
          have hfalsy : pyTruthyOpt (ToolsParser.lastToolContent s.messages) = false :=
            lastToolContent_fold_falsy s.messages none hsm rfl
          refine ⟨?_, ?_, ?_⟩
          · exact pyTruthyOpt_false _ hfalsy
          · show (some (if pyTruthyOpt (ToolsParser.lastToolContent s.messages)
                then "extract" else "error") : Option String) = some "error"
            rw [hfalsy]
            rfl
          · show (if pyTruthyOpt (ToolsParser.lastToolContent s.messages) then none
                else some "Failed to extract text from document.") =
                some "Failed to extract text from document."
            rw [hfalsy]
            rfl

/-- The summariser stage does not write the message log. -/
theorem summariser_stage_messages (summ : String → Except String String)
    (s sf : ContractAnalysisState)
    (h : summariser_stage summ s = Except.ok sf) : sf.messages = s.messages := by
  have hm : (applyPatch s (summariser_agent summ s)).messages = s.messages := by
    rw [applyPatch_messages, summariser_agent_messages]
    simp
  unfold summariser_stage at h
  by_cases hk : route_after_step (applyPatch s (summariser_agent summ s)) = "complete"
  · simp only [hk, if_true] at h
    simp only [Except.ok.injEq] at h
    rw [← h, hm]
  · simp only [hk, if_false] at h
    by_cases hk2 : route_after_step (applyPatch s (summariser_agent summ s)) = "error_handler"
    · simp only [hk2, if_true] at h
      simp only [Except.ok.injEq] at h
      rw [← h, error_stage_eq]
      exact hm
    · simp only [hk2, if_false] at h
      exact Except.noConfusion h

/-- The risk-assessor stage does not write the message log. -/
theorem risk_stage_messages (rk : String → Except String RiskAssessmentResult)
    (summ : String → Except String String) (s sf : ContractAnalysisState)
    (h : risk_stage rk summ s = Except.ok sf) : sf.messages = s.messages := by
  have hm : (applyPatch s (risk_assessor_agent rk s)).messages = s.messages := by
    rw [applyPatch_messages, risk_assessor_agent_messages]
    simp
  unfold risk_stage at h
  by_cases hk : route_after_step (applyPatch s (risk_assessor_agent rk s)) = "summariser"
  · simp only [hk, if_true] at h
    rw [summariser_stage_messages _ _ _ h, hm]
  · simp only [hk, if_false] at h
    by_cases hk2 : route_after_step (applyPatch s (risk_assessor_agent rk s)) = "error_handler"
    · simp only [hk2, if_true] at h
      simp only [Except.ok.injEq] at h
      rw [← h, error_stage_eq]
      exact hm
    · simp only [hk2, if_false] at h
      exact Except.noConfusion h

/-- The clause-extractor stage does not write the message log. -/
theorem clause_stage_messages (ext : String → Except String ClauseExtractionResult)
    (rk : String → Except String RiskAssessmentResult)
    (summ : String → Except String String) (s sf : ContractAnalysisState)
    (h : clause_stage ext rk summ s = Except.ok sf) : sf.messages = s.messages := by
  have hm : (applyPatch s (clause_extractor_agent ext s)).messages = s.messages := by
    rw [applyPatch_messages, clause_extractor_agent_messages]
    simp
  unfold clause_stage at h
  by_cases hk : route_after_step (applyPatch s (clause_extractor_agent ext s)) = "risk_assessor"
  · simp only [hk, if_true] at h
    rw [risk_stage_messages _ _ _ _ h, hm]
  · simp only [hk, if_false] at h
    by_cases hk2 : route_after_step (applyPatch s (clause_extractor_agent ext s)) = "error_handler"
    · simp only [hk2, if_true] at h
      simp only [Except.ok.injEq] at h
      rw [← h, error_stage_eq]
      exact hm
    · simp only [hk2, if_false] at h
      exact Except.noConfusion h

/-- A clause-extractor stage entered without parsed text terminates
through the error terminal with the no-text message. -/
theorem clause_stage_no_text (ext : String → Except String ClauseExtractionResult)
    (rk : String → Except String RiskAssessmentResult)
    (summ : String → Except String String) (s sf : ContractAnalysisState)
    (h : clause_stage ext rk summ s = Except.ok sf)
    (hpt : s.parsed_text = none ∨ s.parsed_text = some "") :
    sf.current_step = some "error"
    ∧ sf.error_message = some "No parsed text available for clause extraction." := by
  have hpt' : s.parsed_text.getD "" = "" := by
    rcases hpt with h' | h' <;> simp [h']
  have hpatch : clause_extractor_agent ext s =
      { current_step := some "error",
        error_message := some (some "No parsed text available for clause extraction.") } := by
    simp [clause_extractor_agent, hpt']
  have hstep : (applyPatch s (clause_extractor_agent ext s)).current_step = some "error" := by
    rw [hpatch]
    rfl
  have hmsg : (applyPatch s (clause_extractor_agent ext s)).error_message =
      some "No parsed text available for clause extraction." := by
    rw [hpatch]
    rfl
  have hroute := route_of_error _ hstep
  unfold clause_stage at h
  simp only [hroute, if_true] at h
  rw [if_neg (by decide : ¬ ("error_handler" : String) = "risk_assessor")] at h
  simp only [Except.ok.injEq] at h
  rw [← h, error_stage_eq]
  exact ⟨rfl, hmsg⟩

/-! ### Claims -/

/-- C3: the claim states that every step function returns a patch on
every input state — in particular on a state lacking the `file_path`
key, which is exactly what the CLI entry point builds (`main.py`
supplies `pdf_path`, not a schema key, so the graph state has no
`file_path`).  The code violates this: both parser agents evaluate
`state["file_path"]` outside any `try:` block, so on the CLI-built
initial state they raise `KeyError` across the step boundary, for
every possible behaviour of the external backends.  The claim matches
the intent documented in the repository (the parser docstring says it
reads `pdf_path`, and `main.py` passes `pdf_path`), so this is a code
bug rather than a wrong claim. -/
theorem C3_parser_raises_keyerror (parsePdf : String → Except PyErr PdfResult)
    (validate : String → Except PyErr String)
    (llm : List Msg → Except String AIMsg) :
    SimpleParser.parser_agent parsePdf validate main_initial_state =
        Except.error "KeyError: file_path"
    ∧ ToolsParser.parser_agent llm main_initial_state =
        Except.error "KeyError: file_path" :=
  ⟨rfl, rfl⟩

/-- C4: `route_after_step` maps `extract`, `assess_risk`, `summarise`,
`complete` and `error` to their destinations (`"complete"` is the key
the summariser edge maps to `END`, the success terminal), routes every
other value of `current_step` — and an unset `current_step`, e.g. the
state where it was never written, and the concrete value `"bogus"` —
to `error_handler`, and is a pure function of the single field
`current_step`. -/
theorem C4_route_after_step_fail_closed (s t : ContractAnalysisState) :
    (s.current_step = some "extract" → route_after_step s = "clause_extractor")
    ∧ (s.current_step = some "assess_risk" → route_after_step s = "risk_assessor")
    ∧ (s.current_step = some "summarise" → route_after_step s = "summariser")
    ∧ (s.current_step = some "complete" → route_after_step s = "complete")
    ∧ (s.current_step = some "error" → route_after_step s = "error_handler")
    ∧ (s.current_step ∉ [some "extract", some "assess_risk", some "summarise",
          some "complete", some "error"] → route_after_step s = "error_handler")
    ∧ (s.current_step = none → route_after_step s = "error_handler")
    ∧ (s.current_step = some "bogus" → route_after_step s = "error_handler")
    ∧ (s.current_step = t.current_step → route_after_step s = route_after_step t) := by
  refine ⟨route_of_extract s, route_of_assess_risk s, route_of_summarise s,
    route_of_complete s, route_of_error s, ?_, ?_, ?_, ?_⟩
  · intro h
    simp only [List.mem_cons, List.mem_singleton, not_or] at h
    obtain ⟨h1, h2, h3, h4, h5, -⟩ := h
    rcases hc : s.current_step with _ | v
    · simp [route_after_step_ite, hc]
    · rw [hc] at h1 h2 h3 h4 h5
      simp only [Option.some.injEq] at h1 h2 h3 h4 h5
      simp [route_after_step_ite, hc, h1, h2, h3, h4]
  · intro h
    simp [route_after_step_ite, h]
  · intro h
    simp [route_after_step_ite, h]
  · intro h
    simp [route_after_step_ite, route_after_step, h]

/-- Witness for C4 at concrete inputs: `current_step = "bogus"` and an
unset `current_step` both route to `error_handler`. -/
theorem C4_route_after_step_fail_closed_witness :
    route_after_step { main_initial_state with current_step := some "bogus" } = "error_handler"
    ∧ route_after_step { main_initial_state with current_step := none } = "error_handler" :=
  ⟨(C4_route_after_step_fail_closed
      { main_initial_state with current_step := some "bogus" } main_initial_state).2.2.2.2.2.2.2.1 rfl,
   (C4_route_after_step_fail_closed
      { main_initial_state with current_step := none } main_initial_state).2.2.2.2.2.2.1 rfl⟩

/-- C8: the error-terminal node is a total function (its body contains
no raising operation, so it never throws), it reads `error_message`
with the default `"Unknown error occurred."` when the field is absent
(first component = the logged text), its patch is exactly
`dict(current_step = "error")`, and the resulting terminal state of
the stage — whose only outgoing edge is to `END`, embedded by
`error_stage` returning the final state — still has
`current_step = "error"`. -/
theorem C8_error_handler_contract (s : ContractAnalysisState) :
    (s.error_message = none → (error_handler s).1 = "Unknown error occurred.")
    ∧ (error_handler s).2 = { current_step := some "error" }
    ∧ (error_stage s).current_step = some "error" := by
  refine ⟨fun h => by simp [error_handler, h], rfl, ?_⟩
  rw [error_stage_eq]

/-- Witness for C8 at the CLI initial state, whose `error_message` is
absent. -/
theorem C8_error_handler_contract_witness :
    (error_handler main_initial_state).1 = "Unknown error occurred."
    ∧ (error_handler main_initial_state).2 = { current_step := some "error" } :=
  ⟨(C8_error_handler_contract main_initial_state).1 rfl,
   (C8_error_handler_contract main_initial_state).2.1⟩

/-- C9: running the error-terminal node changes nothing but
`current_step`: the final state is the input state with
`current_step := "error"`, so every field written by earlier steps
(`parsed_text`, `extraction_result`, `risk_result`,
`executive_summary`, `error_message`, metadata, messages, the input
path) is identical before and after it runs. -/
theorem C9_error_terminal_frame (s : ContractAnalysisState) :
    error_stage s = { s with current_step := some "error" }
    ∧ (error_stage s).parsed_text = s.parsed_text
    ∧ (error_stage s).extraction_result = s.extraction_result
    ∧ (error_stage s).risk_result = s.risk_result
    ∧ (error_stage s).executive_summary = s.executive_summary
    ∧ (error_stage s).error_message = s.error_message
    ∧ (error_stage s).document_metadata = s.document_metadata
    ∧ (error_stage s).messages = s.messages
    ∧ (error_stage s).file_path = s.file_path := by
  rw [error_stage_eq]
  exact ⟨rfl, rfl, rfl, rfl, rfl, rfl, rfl, rfl, rfl⟩

/-- C10: for a state whose `parsed_text` is `None`, missing, or the
empty string (the first two are the `none` case of the embedding —
both reach `state.get("parsed_text", "")` as a falsy value — the third
is `some ""`), the clause extractor returns the no-text error patch,
and it does so for every behaviour `ext` of the generation client,
i.e. without the result depending on (or invoking) the client. -/
theorem C10_clause_extractor_empty_text
    (ext : String → Except String ClauseExtractionResult)
    (s : ContractAnalysisState)
    (h : s.parsed_text = none ∨ s.parsed_text = some "") :
    clause_extractor_agent ext s =
      { current_step := some "error",
        error_message := some (some "No parsed text available for clause extraction.") } := by
  rcases h with h | h <;> simp [clause_extractor_agent, h]

/-- Witness for C10: a state with absent `parsed_text` and a client
that would raise; the step still returns the no-text error patch. -/
theorem C10_clause_extractor_empty_text_witness :
    clause_extractor_agent (fun _ => Except.error "transport error") main_initial_state =
      { current_step := some "error",
        error_message := some (some "No parsed text available for clause extraction.") } :=
  C10_clause_extractor_empty_text (fun _ => Except.error "transport error")
    main_initial_state (Or.inl rfl)

/-- C6: below or at the 1,500,000-character budget the analysed text
is the parsed text unmodified with no note; above it, it is the first
1,500,000 characters followed by the note naming the truncation point
and the original total length.  The third conjunct observes the text
the Extract step actually submits to the generation client: with a
client that echoes its payload into the raised error, the error
message of the step exposes exactly the fixed prompt followed by
`text_to_analyse parsed_text`. -/
theorem C6_truncation_policy (pt : String) (s : ContractAnalysisState) :
    (pt.length ≤ max_chars → text_to_analyse pt = pt)
    ∧ (max_chars < pt.length →
        text_to_analyse pt =
          pySlice pt max_chars ++
            ("\n\n[NOTE: Contract truncated at 1500000 characters. Full contract is " ++
              (toString pt.length ++ " characters.]")))
    ∧ (s.parsed_text = some pt → pt ≠ "" →
        clause_extractor_agent (fun payload => Except.error payload) s =
          { current_step := some "error",
            error_message := some (some
              ("Clause extraction failed: Extract all key clauses from this contract:\n\n" ++
                text_to_analyse pt)) }) := by
  refine ⟨?_, ?_, ?_⟩
  · intro h
    have hn : ¬ pt.length > max_chars := by omega
    simp only [text_to_analyse, if_neg hn, pySlice]
    have : pt.data.take max_chars = pt.data := List.take_of_length_le h
    rw [this]
  · intro h
    have hp : pt.length > max_chars := h
    simp only [text_to_analyse, if_pos hp]
    rfl
  · intro hpt hne
    simp [clause_extractor_agent, hpt, hne]
    rfl

/-- Witness for C6: a 3-character text is submitted unmodified and, on
a state carrying it, reaches the client unmodified behind the fixed
prompt; the 1,500,001-character text `longText` is truncated with the
note. -/
theorem C6_truncation_policy_witness :
    text_to_analyse "abc" = "abc"
    ∧ text_to_analyse longText =
        pySlice longText max_chars ++
          ("\n\n[NOTE: Contract truncated at 1500000 characters. Full contract is " ++
            (toString longText.length ++ " characters.]"))
    ∧ clause_extractor_agent (fun payload => Except.error payload)
        { main_initial_state with parsed_text := some "abc" } =
        { current_step := some "error",
          error_message := some (some
            ("Clause extraction failed: Extract all key clauses from this contract:\n\n" ++
              text_to_analyse "abc")) } :=
  ⟨(C6_truncation_policy "abc" main_initial_state).1 (by decide),
   (C6_truncation_policy longText main_initial_state).2.1 (by
      show max_chars < (List.replicate 1500001 'a').length
      rw [List.length_replicate]
      norm_num [max_chars]),
   (C6_truncation_policy "abc"
      { main_initial_state with parsed_text := some "abc" }).2.2 rfl (by decide)⟩

/-- C5: when the generation client raises inside Extract, Assess-Risk
or Summarise (here: a client whose call raises the exception `e`,
while the precondition fields are present so the client is reached),
the returned patch carries `current_step = "error"` and an
`error_message` of exactly `"<step name prefix>: " ++ str(e)`, and has
no result key (in `Patch`, a `none`/`[]` field is a key absent from
the returned dict — the equations pin every other field to its absent
default).  The last conjunct runs the final pipeline segment: a
transport error in Summarise makes the stage terminate through the
error terminal in a final state with `current_step = "error"` and the
`"Summarisation failed: "`-prefixed message. -/
theorem C5_generation_failure_patches (e : String) (s : ContractAnalysisState) :
    (∀ pt, s.parsed_text = some pt → pt ≠ "" →
        clause_extractor_agent (fun _ => Except.error e) s =
          { current_step := some "error",
            error_message := some (some ("Clause extraction failed: " ++ e)) })
    ∧ (∀ ex, s.extraction_result = some ex →
        risk_assessor_agent (fun _ => Except.error e) s =
          { current_step := some "error",
            error_message := some (some ("Risk assessment failed: " ++ e)) })
    ∧ (∀ ex rr, s.extraction_result = some ex → s.risk_result = some rr →
        summariser_agent (fun _ => Except.error e) s =
          { current_step := some "error",
            error_message := some (some ("Summarisation failed: " ++ e)) })
    ∧ (∀ ex rr sf, s.extraction_result = some ex → s.risk_result = some rr →
        summariser_stage (fun _ => Except.error e) s = Except.ok sf →
        sf.current_step = some "error"
        ∧ sf.error_message = some ("Summarisation failed: " ++ e)) := by
  refine ⟨?_, ?_, ?_, ?_⟩
  · intro pt hpt hne
    simp [clause_extractor_agent, hpt, hne]
  · intro ex hE
    simp [risk_assessor_agent, hE]
  · intro ex rr hE hR
    simp [summariser_agent, hE, hR]
  · intro ex rr sf hE hR hrun
    have hpatch : summariser_agent (fun _ => Except.error e) s =
        { current_step := some "error",
          error_message := some (some ("Summarisation failed: " ++ e)) } := by
      simp [summariser_agent, hE, hR]
    have hstep : (applyPatch s (summariser_agent (fun _ => Except.error e) s)).current_step =
        some "error" := by
      rw [hpatch]; simp [applyPatch]
    have hmsg : (applyPatch s (summariser_agent (fun _ => Except.error e) s)).error_message =
        some ("Summarisation failed: " ++ e) := by
      rw [hpatch]; simp [applyPatch]
    have hroute : route_after_step (applyPatch s (summariser_agent (fun _ => Except.error e) s)) =
        "error_handler" := route_of_error _ hstep
    unfold summariser_stage at hrun
    simp only [hroute] at hrun
    norm_num at hrun
    rw [if_neg (by decide : ¬ ("error_handler" : String) = "complete")] at hrun
    simp only [Except.ok.injEq] at hrun
    rw [← hrun, error_stage_eq]
    exact ⟨rfl, hmsg⟩

/-- Witness for C5: a concrete state holding all upstream fields and a
client raising a transport error. -/
theorem C5_generation_failure_patches_witness :
    risk_assessor_agent (fun _ => Except.error "transport error")
        { main_initial_state with extraction_result := some sampleExtraction } =
      { current_step := some "error",
        error_message := some (some "Risk assessment failed: transport error") }
    ∧ (error_stage (applyPatch
          { main_initial_state with
              extraction_result := some sampleExtraction
              risk_result := some sampleRisk }
          (summariser_agent (fun _ => Except.error "transport error")
            { main_initial_state with
                extraction_result := some sampleExtraction
                risk_result := some sampleRisk }))).current_step = some "error" := by
  constructor
  · exact (C5_generation_failure_patches "transport error"
      { main_initial_state with extraction_result := some sampleExtraction }).2.1
      sampleExtraction rfl
  · exact ((C5_generation_failure_patches "transport error"
      { main_initial_state with
          extraction_result := some sampleExtraction
          risk_result := some sampleRisk }).2.2.2 sampleExtraction sampleRisk _ rfl rfl
      (by rfl)).1

/-- C7: in both pipeline variants, every terminating run whose final
state has `current_step = "complete"` carries all three results
(`extraction_result`, `risk_result`, `executive_summary` are present):
no terminal success with partial data, for every behaviour of the
external backends and clients. -/
theorem C7_complete_has_all_results
    (parsePdf : String → Except PyErr PdfResult)
    (validate : String → Except PyErr String)
    (llm : List Msg → Except String AIMsg)
    (runTool : String → String → ToolResult)
    (ext : String → Except String ClauseExtractionResult)
    (rk : String → Except String RiskAssessmentResult)
    (summ : String → Except String String)
    (fuel : Nat) (s0 sf sg : ContractAnalysisState) :
    (run_pipeline parsePdf validate ext rk summ s0 = Except.ok sf →
      sf.current_step = some "complete" →
      sf.extraction_result.isSome ∧ sf.risk_result.isSome ∧ sf.executive_summary.isSome)
    ∧ (run_pipeline_with_tools llm runTool ext rk summ fuel s0 = Except.ok (some sg) →
      sg.current_step = some "complete" →
      sg.extraction_result.isSome ∧ sg.risk_result.isSome ∧ sg.executive_summary.isSome) := by
  constructor
  · intro hrun hc
    unfold run_pipeline at hrun
    rcases hp : SimpleParser.parser_agent parsePdf validate s0 with e | p
    · rw [hp] at hrun; exact Except.noConfusion hrun
    · rw [hp] at hrun
      simp only [] at hrun
      by_cases hk : route_after_step (applyPatch s0 p) = "clause_extractor"
      · rw [if_pos hk] at hrun
        exact clause_stage_complete _ _ _ _ _ hrun hc
      · rw [if_neg hk] at hrun
        by_cases hk2 : route_after_step (applyPatch s0 p) = "error_handler"
        · rw [if_pos hk2] at hrun
          rw [error_exit_step _ _ hrun] at hc
          simp at hc
        · rw [if_neg hk2] at hrun
          exact Except.noConfusion hrun
  · intro hrun hc
    unfold run_pipeline_with_tools at hrun
    rcases hl : parse_loop llm runTool fuel s0 with e | os
    · simp only [hl] at hrun
      exact Except.noConfusion hrun
    · rcases os with _ | s1
      · simp only [hl] at hrun
        simp at hrun
      · simp only [hl] at hrun
        rcases hcs : clause_stage ext rk summ s1 with e | sf2
        · simp only [hcs] at hrun
          exact Except.noConfusion hrun
        · simp only [hcs, Except.ok.injEq, Option.some.injEq] at hrun
          rw [← hrun] at hc ⊢
          exact clause_stage_complete _ _ _ _ _ hcs hc

/-- Witness for C7: a concrete fully successful run of each pipeline
variant ends complete with all three results present. -/
theorem C7_complete_has_all_results_witness :
    (c7_final.extraction_result.isSome ∧ c7_final.risk_result.isSome
      ∧ c7_final.executive_summary.isSome)
    ∧ (c1_final.extraction_result.isSome ∧ c1_final.risk_result.isSome
      ∧ c1_final.executive_summary.isSome) :=
  ⟨(C7_complete_has_all_results c7_parsePdf c7_validate w1_llm c1_runTool c1_ext c1_rk c1_summ
      1 c7_init c7_final c7_final).1 (by rfl) rfl,
   (C7_complete_has_all_results c7_parsePdf c7_validate c1_llm c1_runTool c1_ext c1_rk c1_summ
      3 c1_init c7_final c1_final).2 (by rfl) rfl⟩

/-- C1 counterexample: a terminating run of the tool-calling pipeline
whose only tool-result record is an `{error: ...}` record — so no
tool-result carries a `full_text` field at all, let alone a non-empty
one — yet whose final state is `complete` with an empty error channel,
not the error state the claim requires: the parser takes the
serialized error record itself as extracted text and the pipeline
proceeds. -/
theorem C1_counterexample :
    run_pipeline_with_tools c1_llm c1_runTool c1_ext c1_rk c1_summ 3 c1_init =
      Except.ok (some c1_final)
    ∧ c1_final.current_step = some "complete"
    ∧ toolContents c1_final.messages = [ToolResult.serialize (ToolResult.err docxErrText)]
    ∧ c1_final.error_message = none :=
  ⟨by rfl, rfl, by rfl, rfl⟩

/-- C1 (amended): the claim holds once "no tool-result record carrying
a non-empty `full_text` field" is weakened to "no tool-result record
with non-empty content" (the code tests the truthiness of the whole
serialized record, not of a `full_text` field; an error record has
non-empty content, as the counterexample shows): for every run of the
tool-calling pipeline that terminates with no tool-result record of
non-empty content in its log, the final state has
`current_step = "error"` and a non-empty `error_message`. -/
theorem C1_no_usable_tool_result_errors (llm : List Msg → Except String AIMsg)
    (runTool : String → String → ToolResult)
    (ext : String → Except String ClauseExtractionResult)
    (rk : String → Except String RiskAssessmentResult)
    (summ : String → Except String String)
    (fuel : Nat) (s0 sf : ContractAnalysisState)
    (hrun : run_pipeline_with_tools llm runTool ext rk summ fuel s0 = Except.ok (some sf))
    (hnone : anyUsableToolResult sf.messages = false) :
    sf.current_step = some "error"
    ∧ sf.error_message ≠ none ∧ sf.error_message ≠ some "" := by
  unfold run_pipeline_with_tools at hrun
  rcases hl : parse_loop llm runTool fuel s0 with e | os
  · simp only [hl] at hrun
    exact Except.noConfusion hrun
  · rcases os with _ | s1
    · simp only [hl] at hrun
      simp at hrun
    · simp only [hl] at hrun
      rcases hcs : clause_stage ext rk summ s1 with e | sf2
      · simp only [hcs] at hrun
        exact Except.noConfusion hrun
      · simp only [hcs, Except.ok.injEq, Option.some.injEq] at hrun
        subst hrun
        have hmsgs : sf2.messages = s1.messages := clause_stage_messages _ _ _ _ _ hcs
        have hnone1 : anyUsableToolResult s1.messages = false := by
          rw [← hmsgs]
          exact hnone
        have hspec := (parse_loop_spec llm runTool fuel s0 s1 hl).2 hnone1
        have hfin := clause_stage_no_text _ _ _ _ _ hcs hspec.1
        refine ⟨hfin.1, ?_, ?_⟩
        · rw [hfin.2]
          simp
        · rw [hfin.2]
          simp

/-- Witness for the amended C1: a run whose reasoning step never
requests a tool, so the log holds no tool-result record at all; the
pipeline ends in the error state with a non-empty message. -/
theorem C1_no_usable_tool_result_errors_witness :
    w1_final.current_step = some "error"
    ∧ w1_final.error_message ≠ none ∧ w1_final.error_message ≠ some "" :=
  C1_no_usable_tool_result_errors w1_llm c1_runTool c1_ext c1_rk c1_summ 1 w1_init w1_final
    (by rfl) (by rfl)

/-- C2 counterexample: when the reasoning step stops requesting tools
over a log whose most recent (and only) tool-result record is an
`{error: ...}` record with no `full_text` field, the claim requires
Parse to fail with a no-text-extracted error; instead the step sets
`parsed_text` to the serialized content of that record and advances to
`current_step = "extract"`. -/
theorem C2_counterexample :
    ToolsParser.parser_agent c2_llm c2_state = Except.ok
      { messages := [Msg.ai "Extraction complete." []],
        parsed_text := some (some docxErrContent),
        current_step := some "extract",
        error_message := some none }
    ∧ docxErrContent =
        "\x7b\"error\": \"python-docx not installed. Run: pip install python-docx\"\x7d"
    ∧ c2_state.messages = [Msg.ai "" [docxToolCall], Msg.tool docxErrContent] :=
  ⟨by rfl, by rfl, rfl⟩

/-- C2 (amended): when the reasoning step stops requesting tools, the
Parse step sets `parsed_text` to the raw content of the most recent
tool-result record of the message log — the serialized result dict,
whether or not it carries a `full_text` field — and fails with the
no-text error patch exactly when that content is falsy, i.e. when
there is no tool-result record at all or its content is the empty
string.  The second conjunct identifies `lastToolContent` as the
content of the most recent tool-result record. -/
theorem C2_parse_uses_last_tool_content (llm : List Msg → Except String AIMsg)
    (s : ContractAnalysisState) (fp : String) (resp : AIMsg)
    (hfp : s.file_path = some fp)
    (hresp : (if s.messages.isEmpty then llm (ToolsParser.seed_messages fp)
              else llm s.messages) = Except.ok resp)
    (hdone : resp.tool_calls = []) :
    ToolsParser.parser_agent llm s = Except.ok
      { messages := [Msg.ai resp.content []],
        parsed_text := some (ToolsParser.lastToolContent s.messages),
        current_step := some (if pyTruthyOpt (ToolsParser.lastToolContent s.messages)
                              then "extract" else "error"),
        error_message := some (if pyTruthyOpt (ToolsParser.lastToolContent s.messages)
                               then none
                               else some "Failed to extract text from document.") }
    ∧ (∀ ms1 c ms2, s.messages = ms1 ++ Msg.tool c :: ms2 →
        (∀ d, Msg.tool d ∉ ms2) → ToolsParser.lastToolContent s.messages = some c) := by
  constructor
  · have hp := parser_agent_eq llm s fp resp hfp hresp
    rw [hdone] at hp
    simpa using hp
  · intro ms1 c ms2 hsplit hno
    rw [hsplit]
    exact lastToolContent_most_recent ms1 c ms2 hno

/-- Witness for the amended C2: a done reasoning step over a log whose
most recent tool record holds ordinary extracted text. -/
theorem C2_parse_uses_last_tool_content_witness :
    ToolsParser.parser_agent w2_llm w2_state = Except.ok
      { messages := [Msg.ai "This is a contract." []],
        parsed_text := some (some "some extracted text"),
        current_step := some "extract",
        error_message := some none }
    ∧ ToolsParser.lastToolContent w2_state.messages = some "some extracted text" :=
  ⟨(C2_parse_uses_last_tool_content w2_llm w2_state "a.pdf"
      { content := "This is a contract.", tool_calls := [] } rfl rfl rfl).1,
   (C2_parse_uses_last_tool_content w2_llm w2_state "a.pdf"
      { content := "This is a contract.", tool_calls := [] } rfl rfl rfl).2
      [] "some extracted text" [] rfl (by intro d hd; simp at hd)⟩

end ContractAnalyser
